import Mathlib

/-
Verification of the capability-adaptive execution runtime
(kiwifruit13/wasm, HyperGPU engine).

The definitions below are a shallow embedding of the JavaScript source:
  - JsVal models JavaScript values together with their truthiness, because
    the cache hit tests in the source are plain truthiness tests.
  - CacheMap models an insertion-ordered string-keyed map (a JS Map).
  - cacheGet / cacheSet model the ResultCache operations of the memory
    optimization system (spec section 4.6); see their doc comments.
  - simpleCache_get / simpleCache_set model createSimpleCache exactly as
    written, including the arrow-function receiver.
  - executeWasmWithMemoryManagement / executeWebGPUCompute model the two
    generic execution frameworks of HyperGpuAPI, instrumented with the
    lists of allocated and released handles and the cache stores performed.
  - initFn / initLoop model HyperGpuResourceManager.init together with
    shouldAttemptRecovery and attemptRecovery.
  - normalizeVectorGeneric models the software fallback vector normalize
    over the real numbers.
  - handleSuperResolution models the super resolution entry point with its
    minimum size guard.
-/

/-- A JavaScript value, as far as the engine inspects one: the cache hit
tests in both execution frameworks branch on plain truthiness. -/
inductive JsVal where
  | null
  | bool (b : Bool)
  | num (n : Int)
  | str (s : String)
  | arr (xs : List JsVal)
  | obj (fs : List (String × JsVal))

/-- JavaScript truthiness: null, false, 0 and the empty string are falsy;
arrays and objects are always truthy. NaN does not arise in the modelled
values. -/
def truthy : JsVal → Bool
  | .null => false
  | .bool b => b
  | .num n => n != 0
  | .str s => s != ""
  | .arr _ => true
  | .obj _ => true

/-- An insertion-ordered string-keyed map, modelling a JS Map: the head is
the oldest inserted key. -/
abbrev CacheMap := List (String × JsVal)

/-- Map.get: the value of the first (and only) entry with the given key. -/
def mapGet (c : CacheMap) (k : String) : Option JsVal :=
  (c.find? (fun p => p.1 == k)).map (fun p => p.2)

/-- Map.set: replace in place when the key is present (JS Map.set keeps the
original insertion position), otherwise append at the end. -/
def mapAssign (c : CacheMap) (k : String) (v : JsVal) : CacheMap :=
  if c.any (fun p => p.1 == k) then
    c.map (fun p => if p.1 == k then (k, v) else p)
  else
    c ++ [(k, v)]

/-- The fixed maximum entry count of the ResultCache (maxSize: 50). -/
def cacheMaxSize : Nat := 50

/-- Modelled from the spec: the ResultCache of the memory optimization
system (HyperGpuMemoryOptimization.createOptimizedSystem), which is loaded
as an external module and is not among the sources here. Spec section 4.6:
get(key) returns the stored value; a missing key reads as null. -/
def cacheGet (c : CacheMap) (k : String) : JsVal :=
  (mapGet c k).getD .null

/-- Modelled from the spec: set(key, value) with FIFO eviction at a fixed
maximum entry count (50); when the map is at (or beyond) the maximum the
oldest inserted key is deleted first, then the new entry is set. This is
also exactly the set logic written in the in-source sibling
createSimpleCache. -/
def cacheSet (c : CacheMap) (k : String) (v : JsVal) : CacheMap :=
  let c1 := if cacheMaxSize ≤ c.length then c.tail else c
  mapAssign c1 k v

/-- The fields of the HyperGpuResourceManager instance that the arrow
functions inside createSimpleCache can reach through their captured
receiver. The manager constructor assigns neither a cache field nor a
maxSize field, so both are undefined; none models undefined. -/
structure ManagerThis where
  cache : Option CacheMap
  maxSize : Option Nat

/-- A freshly constructed HyperGpuResourceManager: no cache and no maxSize
field is ever assigned on the instance. -/
def freshManagerThis : ManagerThis := { cache := none, maxSize := none }

/-- Outcome of a JS call that can fail with a TypeError. -/
inductive JsOutcome (α : Type) where
  | ok (a : α)
  | typeError (msg : String)

/-- createSimpleCache().get as written in the source:
(key) => this.cache.get(key) || null, where this is the manager instance
captured by the arrow function, not the returned object literal. When
this.cache is undefined the property read throws a TypeError; otherwise
the looked-up value is coerced by || null. -/
def simpleCache_get (m : ManagerThis) (k : String) : JsOutcome JsVal :=
  match m.cache with
  | none => .typeError "this.cache is undefined"
  | some c =>
      let v := (mapGet c k).getD .null
      .ok (if truthy v then v else .null)

/-- createSimpleCache().set as written in the source: the arrow function
reads this.cache.size (TypeError when this.cache is undefined), compares it
with this.maxSize (a comparison with undefined is false), deletes the first
key when at capacity, then sets the entry. -/
def simpleCache_set (m : ManagerThis) (k : String) (v : JsVal) : JsOutcome ManagerThis :=
  match m.cache with
  | none => .typeError "this.cache is undefined"
  | some c =>
      let atCapacity := match m.maxSize with
        | none => false
        | some ms => ms ≤ c.length
      let c1 := if atCapacity then c.tail else c
      .ok { m with cache := some (mapAssign c1 k v) }

/-- The behaviour of the per-operation closures handed to the linear-memory
execution framework, given as data: the pointers that setupMemory pushes
onto allocatedPointers (in order, before its outcome is decided), whether
setupMemory throws after those pushes, and the outcome of the executeWasm
backend call. The in-source setups throw on a falsy pointer before pushing,
but the framework itself does not assume that. -/
structure WasmBehavior where
  setupPtrs : List Nat
  setupThrows : Option String
  invokeResult : Except String JsVal

/-- Instrumented outcome of one executeWasmWithMemoryManagement call:
the returned or thrown value, the cache state afterwards, the contents of
allocatedPointers when the terminal cleanup runs, the pointers the cleanup
actually passes to deallocate or free_memory, whether setupMemory and
executeWasm ran, and the store of the result into the ResultCache (the
cache key and value passed to cacheManager.set), if any. -/
structure WasmRun where
  result : Except String JsVal
  cacheAfter : Option CacheMap
  allocated : List Nat
  released : List Nat
  setupRan : Bool
  invokeRan : Bool
  dataSetCall : Option (String × JsVal)

/-- The unified cache key of the linear-memory framework:
methodName + underscore + JSON.stringify(cacheKeyData); the serialized
fingerprint is taken here as an already-serialized string. -/
def wasmCacheKey (methodName ckData : String) : String :=
  methodName ++ "_" ++ ckData

/-- HyperGpuAPI.executeWasmWithMemoryManagement: check the ResultCache
(plain truthiness hit test) and return the cached value on a hit; otherwise
run setupMemory (which appends to allocatedPointers and may throw), run
executeWasm, store the result unconditionally whenever a cache manager is
present, and in a finally block release every pointer in allocatedPointers
whose value is truthy (nonzero), on the success and on the failure path. -/
def executeWasmWithMemoryManagement (cache : Option CacheMap)
    (methodName ckData : String) (beh : WasmBehavior) : WasmRun :=
  let cacheKey := wasmCacheKey methodName ckData
  let hit : Option JsVal :=
    match cache with
    | some c =>
        let cached := cacheGet c cacheKey
        if truthy cached then some cached else none
    | none => none
  match hit with
  | some v =>
      { result := .ok v, cacheAfter := cache, allocated := [], released := [],
        setupRan := false, invokeRan := false, dataSetCall := none }
  | none =>
      let allocated := beh.setupPtrs
      let released := allocated.filter (fun p => p != 0)
      match beh.setupThrows with
      | some e =>
          { result := .error e, cacheAfter := cache, allocated := allocated,
            released := released, setupRan := true, invokeRan := false,
            dataSetCall := none }
      | none =>
          match beh.invokeResult with
          | .error e =>
              { result := .error e, cacheAfter := cache, allocated := allocated,
                released := released, setupRan := true, invokeRan := true,
                dataSetCall := none }
          | .ok v =>
              match cache with
              | some c =>
                  { result := .ok v, cacheAfter := some (cacheSet c cacheKey v),
                    allocated := allocated, released := released,
                    setupRan := true, invokeRan := true,
                    dataSetCall := some (cacheKey, v) }
              | none =>
                  { result := .ok v, cacheAfter := none,
                    allocated := allocated, released := released,
                    setupRan := true, invokeRan := true, dataSetCall := none }

/-- HyperGpuAPI.shouldCacheResult: only small computation results are
cached; the serialized cache key data must be at most 10000 characters. -/
def shouldCacheResult (ckData : String) : Bool :=
  ckData.length ≤ 10000

/-- The unified cache key of the GPU framework:
gpu_ + operationName + underscore + JSON.stringify(cacheKeyData). -/
def gpuCacheKey (operationName ckData : String) : String :=
  "gpu_" ++ operationName ++ "_" ++ ckData

/-- The pipeline cache key of getOrCreatePipeline:
operationName + _pipeline. -/
def pipelineKey (operationName : String) : String :=
  operationName ++ "_pipeline"

/-- HyperGpuAPI.getOrCreatePipeline: look the pipeline up in the shared
ResultCache (this.rm.cacheManager) under operationName + _pipeline with a
truthiness hit test; on a miss run createPipelineFunc and, when a cache
manager is present, store the built pipeline into that same ResultCache.
Returns the pipeline, the cache state afterwards, and whether a build ran. -/
def getOrCreatePipeline (cache : Option CacheMap) (operationName : String)
    (build : Except String JsVal) : Except String (JsVal × Option CacheMap × Bool) :=
  let key := pipelineKey operationName
  let hit : Option JsVal :=
    match cache with
    | some c =>
        let cached := cacheGet c key
        if truthy cached then some cached else none
    | none => none
  match hit with
  | some v => .ok (v, cache, false)
  | none =>
      match build with
      | .error e => .error e
      | .ok p =>
          match cache with
          | some c => .ok (p, some (cacheSet c key p), true)
          | none => .ok (p, none, true)

/-- The behaviour of the per-operation closures handed to the GPU execution
framework: the buffers that setupBuffers pushes onto allocatedBuffers
(their handles, 0 modelling a null buffer), whether setupBuffers throws
after those pushes, the outcome of createPipelineFunc, and the outcome of
executeCompute. -/
structure GpuBehavior where
  setupBuffers : List Nat
  setupThrows : Option String
  pipelineBuild : Except String JsVal
  computeResult : Except String JsVal

/-- Instrumented outcome of one executeWebGPUCompute call, mirroring
WasmRun, plus whether a pipeline build ran. -/
structure GpuRun where
  result : Except String JsVal
  cacheAfter : Option CacheMap
  allocated : List Nat
  released : List Nat
  setupRan : Bool
  computeRan : Bool
  pipelineBuilt : Bool
  dataSetCall : Option (String × JsVal)

/-- HyperGpuAPI.executeWebGPUCompute: throw when the WebGPU core is not
available or not initialized (before any allocation); compute shouldCache
from the serialized cache key data; on shouldCache with a cache manager,
check the ResultCache with a truthiness hit test; otherwise run
setupBuffers, fetch or build the pipeline through getOrCreatePipeline
(which may store into the same ResultCache), run executeCompute, store the
result only when shouldCache holds and a cache manager is present, and in a
finally block destroy or return every buffer in allocatedBuffers whose
handle is truthy, on the success and on the failure path. -/
def executeWebGPUCompute (coreReady : Bool) (cache : Option CacheMap)
    (operationName ckData : String) (beh : GpuBehavior) : GpuRun :=
  if coreReady then
    let cacheKey := gpuCacheKey operationName ckData
    let shouldCache := shouldCacheResult ckData
    let hit : Option JsVal :=
      match shouldCache, cache with
      | true, some c =>
          let cached := cacheGet c cacheKey
          if truthy cached then some cached else none
      | _, _ => none
    match hit with
    | some v =>
        { result := .ok v, cacheAfter := cache, allocated := [], released := [],
          setupRan := false, computeRan := false, pipelineBuilt := false,
          dataSetCall := none }
    | none =>
        let allocated := beh.setupBuffers
        let released := allocated.filter (fun b => b != 0)
        match beh.setupThrows with
        | some e =>
            { result := .error e, cacheAfter := cache, allocated := allocated,
              released := released, setupRan := true, computeRan := false,
              pipelineBuilt := false, dataSetCall := none }
        | none =>
            match getOrCreatePipeline cache operationName beh.pipelineBuild with
            | .error e =>
                { result := .error e, cacheAfter := cache, allocated := allocated,
                  released := released, setupRan := true, computeRan := false,
                  pipelineBuilt := false, dataSetCall := none }
            | .ok (_, cache1, built) =>
                match beh.computeResult with
                | .error e =>
                    { result := .error e, cacheAfter := cache1,
                      allocated := allocated, released := released,
                      setupRan := true, computeRan := true,
                      pipelineBuilt := built, dataSetCall := none }
                | .ok v =>
                    match shouldCache, cache1 with
                    | true, some c1 =>
                        { result := .ok v,
                          cacheAfter := some (cacheSet c1 cacheKey v),
                          allocated := allocated, released := released,
                          setupRan := true, computeRan := true,
                          pipelineBuilt := built,
                          dataSetCall := some (cacheKey, v) }
                    | _, _ =>
                        { result := .ok v, cacheAfter := cache1,
                          allocated := allocated, released := released,
                          setupRan := true, computeRan := true,
                          pipelineBuilt := built, dataSetCall := none }
  else
    { result := .error "WebGPU core not available", cacheAfter := cache,
      allocated := [], released := [], setupRan := false, computeRan := false,
      pipelineBuilt := false, dataSetCall := none }

/-- The recovery configuration of initState.recovery: maxAttempts (default
3), the base retry delay (1000 ms in attemptRecovery), and the enabled
flag. -/
structure InitConfig where
  maxAttempts : Nat
  baseDelay : Nat
  enabled : Bool

/-- The manager state observed by the init entry guard: the isInitialized
flag, the current phase string, and initState.recovery.attemptCount. While
a first init run is suspended inside a phase, isInitialized is still false
and phase names that phase. -/
structure MgrState where
  isInitialized : Bool
  phase : String
  attemptCount : Nat

/-- The observable outcome of one init call: how many times the phase
sequence was entered (attempts), the backoff delays awaited before each
retry (in order), the value returned to the caller (ok) or the error that
escaped, and the final attempt count. -/
structure InitRun where
  attempts : Nat
  delays : List Nat
  outcome : Except String Unit
  finalAttemptCount : Nat

/-- The body of HyperGpuResourceManager.init from the point where the entry
guard has been passed: increment attemptCount, run the phase sequence
(phaseResult is the outcome of the try block, .error when a phase throws),
and on failure either retry after a delay of baseDelay * attemptCount when
shouldAttemptRecovery holds (recovery enabled and attemptCount below
maxAttempts), or rethrow the error to the caller. -/
def initLoop (attemptCount : Nat) (cfg : InitConfig)
    (phaseResult : Except String Unit) : InitRun :=
  let ac := attemptCount + 1
  match phaseResult with
  | .ok _ =>
      { attempts := 1, delays := [], outcome := .ok (), finalAttemptCount := ac }
  | .error e =>
      if _h : cfg.enabled = true ∧ ac < cfg.maxAttempts then
        let rest := initLoop ac cfg phaseResult
        { attempts := 1 + rest.attempts,
          delays := cfg.baseDelay * ac :: rest.delays,
          outcome := rest.outcome,
          finalAttemptCount := rest.finalAttemptCount }
      else
        { attempts := 1, delays := [], outcome := .error e,
          finalAttemptCount := ac }
termination_by cfg.maxAttempts - attemptCount
decreasing_by omega

/-- HyperGpuResourceManager.init: when isInitialized is already true,
return immediately without entering any phase; otherwise run the phase
sequence with the recovery loop. The guard consults only isInitialized, so
a call made while a previous run is still in progress (isInitialized still
false) enters the phase sequence again. -/
def initFn (s : MgrState) (cfg : InitConfig)
    (phaseResult : Except String Unit) : InitRun :=
  if s.isInitialized then
    { attempts := 0, delays := [], outcome := .ok (),
      finalAttemptCount := s.attemptCount }
  else
    initLoop s.attemptCount cfg phaseResult

/-- The Euclidean norm computed by the fallback wasmCore:
Math.sqrt(vec.reduce((sum, v) => sum + v * v, 0)), over the reals. -/
noncomputable def euclideanNorm (vec : List ℝ) : ℝ :=
  Real.sqrt (vec.foldl (fun sum v => sum + v * v) 0)

/-- ModuleLoader.createFallbackWasmCore().normalizeVectorGeneric:
len > 0 ? vec.map(v => v / len) : vec, with len the Euclidean norm. -/
noncomputable def normalizeVectorGeneric (vec : List ℝ) : List ℝ :=
  if 0 < euclideanNorm vec then vec.map (fun v => v / euclideanNorm vec)
  else vec

/-- HYPERGPU_CONFIG.minSuperResolutionSize. -/
def minSuperResolutionSize : Nat := 50

/-- A Uint8ClampedArray of pixel bytes as a JS value. -/
def jsBytes (l : List Nat) : JsVal :=
  .arr (l.map (fun b => .num (Int.ofNat b)))

/-- The early return of handleSuperResolution for small inputs:
an object with the input data, the input dimensions, and status skipped. -/
def superResolutionSkipResult (imageData : List Nat) (inW inH : Nat) : JsVal :=
  .obj [("outputData", jsBytes imageData),
        ("width", .num (Int.ofNat inW)),
        ("height", .num (Int.ofNat inH)),
        ("status", .str "skipped")]

/-- The serialized cache key data of handleSuperResolution:
JSON.stringify([imageData.length, inWidth, inHeight, outWidth, outHeight]). -/
def srCacheKeyData (len inW inH outW outH : Nat) : String :=
  "[" ++ Nat.repr len ++ "," ++ Nat.repr inW ++ "," ++ Nat.repr inH ++ ","
      ++ Nat.repr outW ++ "," ++ Nat.repr outH ++ "]"

/-- HyperGpuAPI.handleSuperResolution: the imageData argument models a
Uint8ClampedArray of bytes (the instanceof guard passes by construction).
When the input width or height is below minSuperResolutionSize, return the
skip object immediately, without entering the execution framework (second
component none: no allocation, no backend call); otherwise execute through
executeWasmWithMemoryManagement with the superResolution cache key, the
opaque backend parts being given as a WasmBehavior. -/
def handleSuperResolution (cache : Option CacheMap) (imageData : List Nat)
    (inW inH outW outH : Nat) (beh : WasmBehavior) :
    Except String JsVal × Option WasmRun :=
  if inW < minSuperResolutionSize ∨ inH < minSuperResolutionSize then
    (.ok (superResolutionSkipResult imageData inW inH), none)
  else
    let run := executeWasmWithMemoryManagement cache "superResolution"
      (srCacheKeyData imageData.length inW inH outW outH) beh
    (run.result, some run)

/-- A serialized fingerprint longer than the 10000-character caching
threshold: 10001 characters. -/
def oversizedFingerprint : String := String.mk (List.replicate 10001 'x')

/-- A compiled-pipeline value as returned by createComputePipeline:
an object holding the pipeline and its bind group layout (truthy). -/
def pipelineVal : JsVal :=
  .obj [("pipeline", .num 1), ("bindGroupLayout", .num 2)]

/-- The data cache keys that fill the ResultCache in the eviction
scenario: the keys of cacheMaxSize successive GPU data results. -/
def dataKeys : List String :=
  (List.range cacheMaxSize).map (fun i => "gpu_vector_add_" ++ Nat.repr i)

/-- The cache state after storing the compiled pipeline and then storing
one data result under each key of dataKeys. -/
def cacheAfterDataFill : CacheMap :=
  dataKeys.foldl (fun c k => cacheSet c k (.num 1))
    [(pipelineKey "vector_add", pipelineVal)]

/-- A manager state in which a first init run is still in progress:
isInitialized is still false, the run is suspended inside the wasm phase,
and one attempt has been counted. -/
def inProgressState : MgrState :=
  { isInitialized := false, phase := "wasm", attemptCount := 1 }

/-- A manager state in which initialization has completed. -/
def completedState : MgrState :=
  { isInitialized := true, phase := "completed", attemptCount := 1 }

/-- The default recovery configuration: maxAttempts 3, base delay 1000 ms,
recovery enabled. -/
def defaultInitConfig : InitConfig :=
  { maxAttempts := 3, baseDelay := 1000, enabled := true }

/- Helper lemmas. -/

theorem count_filter_nonzero (l : List Nat) (p : Nat) (hp : p ≠ 0) :
    (l.filter (fun x => x != 0)).count p = l.count p := by
  induction l with
  | nil => rfl
  | cons a t ih =>
      by_cases ha : a = 0
      · subst ha
        simp [List.filter_cons, List.count_cons, ih, Ne.symm hp]
      · simp [List.filter_cons, ha, List.count_cons, ih]

theorem wasm_released_filter (cache : Option CacheMap) (m ck : String) (beh : WasmBehavior) :
    (executeWasmWithMemoryManagement cache m ck beh).released
      = (executeWasmWithMemoryManagement cache m ck beh).allocated.filter (fun p => p != 0) := by
  unfold executeWasmWithMemoryManagement
  dsimp only
  repeat' split
  all_goals rfl

theorem gpu_released_filter (core : Bool) (cache : Option CacheMap) (op ck : String) (beh : GpuBehavior) :
    (executeWebGPUCompute core cache op ck beh).released
      = (executeWebGPUCompute core cache op ck beh).allocated.filter (fun b => b != 0) := by
  unfold executeWebGPUCompute
  dsimp only
  repeat' split
  all_goals rfl

theorem mapGet_mapAssign_self (c : CacheMap) (k : String) (v : JsVal) :
    mapGet (mapAssign c k v) k = some v := by
  unfold mapAssign
  by_cases h : c.any (fun p => p.1 == k) = true
  · rw [if_pos h]
    induction c with
    | nil => simp at h
    | cons p t ih =>
        by_cases hp : (p.1 == k) = true
        · unfold mapGet
          rw [List.map_cons, if_pos hp, List.find?_cons_of_pos _ (by simp)]
          rfl
        · have hpb : (p.1 == k) = false := by simpa using hp
          have h2 : t.any (fun p => p.1 == k) = true := by
            simpa [List.any_cons, hpb] using h
          unfold mapGet
          rw [List.map_cons, if_neg hp, List.find?_cons_of_neg _ (by simp [hpb])]
          exact ih h2
  · rw [if_neg h]
    induction c with
    | nil =>
        unfold mapGet
        rw [List.nil_append, List.find?_cons_of_pos _ (by simp)]
        rfl
    | cons p t ih =>
        have hpb : (p.1 == k) = false := by
          rcases Bool.eq_false_or_eq_true (p.1 == k) with ht | hf
          · exact absurd (by simp [List.any_cons, ht]) h
          · exact hf
        have h2 : ¬ t.any (fun p => p.1 == k) = true := by
          intro ht
          exact h (by simp [List.any_cons, ht])
        unfold mapGet
        rw [List.cons_append, List.find?_cons_of_neg _ (by simp [hpb])]
        exact ih h2

theorem mapGet_cacheSet_self (c : CacheMap) (k : String) (v : JsVal) :
    mapGet (cacheSet c k v) k = some v := by
  unfold cacheSet
  exact mapGet_mapAssign_self _ k v

theorem cacheGet_cacheSet_self (c : CacheMap) (k : String) (v : JsVal) :
    cacheGet (cacheSet c k v) k = v := by
  unfold cacheGet
  rw [mapGet_cacheSet_self]
  rfl

theorem wasm_run_hit (c : CacheMap) (m ck : String) (beh : WasmBehavior)
    (hhit : truthy (cacheGet c (wasmCacheKey m ck)) = true) :
    executeWasmWithMemoryManagement (some c) m ck beh =
      { result := .ok (cacheGet c (wasmCacheKey m ck)), cacheAfter := some c,
        allocated := [], released := [], setupRan := false, invokeRan := false,
        dataSetCall := none } := by
  unfold executeWasmWithMemoryManagement
  simp [hhit]

theorem wasm_run_miss (c : CacheMap) (m ck : String) (beh : WasmBehavior) (v : JsVal)
    (hmiss : truthy (cacheGet c (wasmCacheKey m ck)) = false)
    (hsetup : beh.setupThrows = none)
    (hinv : beh.invokeResult = .ok v) :
    executeWasmWithMemoryManagement (some c) m ck beh =
      { result := .ok v, cacheAfter := some (cacheSet c (wasmCacheKey m ck) v),
        allocated := beh.setupPtrs,
        released := beh.setupPtrs.filter (fun p => p != 0),
        setupRan := true, invokeRan := true,
        dataSetCall := some (wasmCacheKey m ck, v) } := by
  unfold executeWasmWithMemoryManagement
  simp [hmiss, hsetup, hinv]

theorem getOrCreatePipeline_some (c : CacheMap) (op : String) (p : JsVal) :
    ∃ q c2 b, getOrCreatePipeline (some c) op (.ok p) = .ok (q, some c2, b) := by
  unfold getOrCreatePipeline
  by_cases h : truthy (cacheGet c (pipelineKey op)) = true
  · exact ⟨cacheGet c (pipelineKey op), c, false, by simp [h]⟩
  · exact ⟨p, cacheSet c (pipelineKey op) p, true, by simp [h]⟩

theorem gpu_run_miss (c : CacheMap) (op ck : String) (beh : GpuBehavior)
    (v q : JsVal) (c2 : CacheMap) (b : Bool)
    (hsc : shouldCacheResult ck = true)
    (hmiss : truthy (cacheGet c (gpuCacheKey op ck)) = false)
    (hsetup : beh.setupThrows = none)
    (hpip : getOrCreatePipeline (some c) op beh.pipelineBuild = .ok (q, some c2, b))
    (hcomp : beh.computeResult = .ok v) :
    executeWebGPUCompute true (some c) op ck beh =
      { result := .ok v, cacheAfter := some (cacheSet c2 (gpuCacheKey op ck) v),
        allocated := beh.setupBuffers,
        released := beh.setupBuffers.filter (fun x => x != 0),
        setupRan := true, computeRan := true, pipelineBuilt := b,
        dataSetCall := some (gpuCacheKey op ck, v) } := by
  unfold executeWebGPUCompute
  simp [hsc, hmiss, hsetup, hpip, hcomp]

theorem initLoop_attempts_pos (ac : Nat) (cfg : InitConfig) (ph : Except String Unit) :
    1 ≤ (initLoop ac cfg ph).attempts := by
  rw [initLoop.eq_def]
  cases ph with
  | ok u => simp
  | error e =>
      dsimp only
      split
      · simp
      · simp

theorem initLoop_all_fail (cfg : InitConfig) (e : String) (hEn : cfg.enabled = true) :
    ∀ k ac, cfg.maxAttempts = ac + k → 1 ≤ k →
      (initLoop ac cfg (.error e)).attempts = k
      ∧ (initLoop ac cfg (.error e)).delays
          = (List.range (k - 1)).map (fun i => cfg.baseDelay * (ac + i + 1))
      ∧ (initLoop ac cfg (.error e)).outcome = .error e
      ∧ (initLoop ac cfg (.error e)).finalAttemptCount = ac + k := by
  intro k
  induction k with
  | zero =>
      intro ac hmax h1
      exact absurd h1 (by omega)
  | succ n ih =>
      intro ac hmax h1
      by_cases hn : n = 0
      · subst hn
        rw [initLoop.eq_def]
        dsimp only
        rw [dif_neg (by rw [hmax]; rintro ⟨h1x, h2x⟩; omega)]
        exact ⟨rfl, by simp, rfl, by simp⟩
      · have hcond : cfg.enabled = true ∧ ac + 1 < cfg.maxAttempts :=
          ⟨hEn, by omega⟩
        rw [initLoop.eq_def]
        dsimp only
        rw [dif_pos hcond]
        obtain ⟨ia, idl, io, ifc⟩ := ih (ac + 1) (by omega) (by omega)
        refine ⟨?_, ?_, ?_, ?_⟩
        · dsimp only
          rw [ia]
          omega
        · dsimp only
          rw [idl]
          obtain ⟨m, rfl⟩ : ∃ m, n = m + 1 := ⟨n - 1, by omega⟩
          simp only [Nat.add_sub_cancel]
          rw [List.range_succ_eq_map, List.map_cons, List.map_map]
          refine congrArg₂ List.cons ?_ ?_
          · norm_num
          · refine List.map_congr_left (fun i hi => ?_)
            show cfg.baseDelay * (ac + 1 + i + 1) = cfg.baseDelay * (ac + (i + 1) + 1)
            ring_nf
        · exact io
        · dsimp only
          rw [ifc]
          omega

/-- C1: for every call made through either execution framework, the
terminal cleanup (the finally block) releases exactly the handles that were
appended to the release list (allocatedPointers / allocatedBuffers), once
each, whatever the outcome of the setup and invoke steps: the released list
is exactly the appended list restricted to real (nonzero) handles, so for
every real handle the number of releases equals the number of appends, on
the success path and on the failure path alike. -/
theorem execution_frameworks_release_all_handles
    (cache gcache : Option CacheMap) (m ck op gck : String)
    (beh : WasmBehavior) (core : Bool) (gbeh : GpuBehavior) :
    ((executeWasmWithMemoryManagement cache m ck beh).released
        = (executeWasmWithMemoryManagement cache m ck beh).allocated.filter (fun p => p != 0))
    ∧ (∀ p : Nat, p ≠ 0 →
        (executeWasmWithMemoryManagement cache m ck beh).released.count p
          = (executeWasmWithMemoryManagement cache m ck beh).allocated.count p)
    ∧ ((executeWebGPUCompute core gcache op gck gbeh).released
        = (executeWebGPUCompute core gcache op gck gbeh).allocated.filter (fun b => b != 0))
    ∧ (∀ b : Nat, b ≠ 0 →
        (executeWebGPUCompute core gcache op gck gbeh).released.count b
          = (executeWebGPUCompute core gcache op gck gbeh).allocated.count b) := by
  refine ⟨wasm_released_filter cache m ck beh, ?_,
    gpu_released_filter core gcache op gck gbeh, ?_⟩
  · intro p hp
    rw [wasm_released_filter cache m ck beh]
    exact count_filter_nonzero _ p hp
  · intro b hb
    rw [gpu_released_filter core gcache op gck gbeh]
    exact count_filter_nonzero _ b hb

/-- Witness for C1: a concrete linear-memory call whose kernel invocation
throws still releases both allocated pointers exactly once. -/
theorem execution_frameworks_release_all_handles_witness :
    (3 : Nat) ≠ 0
    ∧ (executeWasmWithMemoryManagement (some []) "normalizeVector" "[3,4,0]"
        { setupPtrs := [3, 8], setupThrows := none,
          invokeResult := .error "kernel failure" }).released.count 3
      = (executeWasmWithMemoryManagement (some []) "normalizeVector" "[3,4,0]"
        { setupPtrs := [3, 8], setupThrows := none,
          invokeResult := .error "kernel failure" }).allocated.count 3 :=
  ⟨by decide,
   (execution_frameworks_release_all_handles (some []) (some [])
      "normalizeVector" "[3,4,0]" "vector_add" "[1,2]"
      { setupPtrs := [3, 8], setupThrows := none,
        invokeResult := .error "kernel failure" }
      true
      { setupBuffers := [5], setupThrows := none,
        pipelineBuild := .ok pipelineVal,
        computeResult := .ok (.arr []) }).2.1 3 (by decide)⟩

/-- C2 counterexample: with a first init run still in progress
(isInitialized still false, the run suspended in the wasm phase, one
attempt counted), a second init() call does not return an in-flight
completion signal: it enters the phase sequence again (attempts = 1) and
increments the attempt counter to 2. No in-flight promise is stored
anywhere in the manager state, so no single-flight behaviour exists. -/
theorem init_second_call_while_in_progress_starts_second_run :
    inProgressState.isInitialized = false
    ∧ (initFn inProgressState defaultInitConfig (.ok ())).attempts = 1
    ∧ (initFn inProgressState defaultInitConfig (.ok ())).finalAttemptCount = 2 := by
  refine ⟨rfl, ?_, ?_⟩ <;>
    · simp only [initFn, inProgressState, defaultInitConfig]
      rw [initLoop]
      simp

/-- C2 amended: calling init() when initialization has already completed is
a no-op that returns immediately (no phase entered, attempt counter
unchanged); but there is no single-flight guarantee: whenever isInitialized
is false — including while a first run is still in progress — a call
enters the phase sequence at least once more. -/
theorem init_noop_when_completed_not_single_flight
    (s : MgrState) (cfg : InitConfig) (ph : Except String Unit) :
    (s.isInitialized = true →
        (initFn s cfg ph).attempts = 0
        ∧ (initFn s cfg ph).finalAttemptCount = s.attemptCount
        ∧ (initFn s cfg ph).outcome = .ok ())
    ∧ (s.isInitialized = false → 1 ≤ (initFn s cfg ph).attempts) := by
  constructor
  · intro h
    simp only [initFn, h]
    exact ⟨rfl, rfl, rfl⟩
  · intro h
    simp only [initFn, h]
    exact initLoop_attempts_pos s.attemptCount cfg ph

/-- Witness for C2 amended: a completed manager state, where init() is a
no-op, and an in-progress state, where init() re-enters the phases. -/
theorem init_noop_when_completed_not_single_flight_witness :
    completedState.isInitialized = true
    ∧ (initFn completedState defaultInitConfig (.ok ())).attempts = 0
    ∧ inProgressState.isInitialized = false
    ∧ 1 ≤ (initFn inProgressState defaultInitConfig (.ok ())).attempts :=
  ⟨rfl,
   ((init_noop_when_completed_not_single_flight completedState defaultInitConfig (.ok ())).1 rfl).1,
   rfl,
   (init_noop_when_completed_not_single_flight inProgressState defaultInitConfig (.ok ())).2 rfl⟩

/-- C3: when every phase of an init run fails, the resource manager makes
exactly maxAttempts total attempts; each retry is preceded by a linear
backoff delay of baseDelay multiplied by the number of attempts made so far
(the delays are baseDelay * 1, ..., baseDelay * (maxAttempts - 1)); after
the last attempt it stops retrying and the error escapes to the caller of
init() (the condition the spec names RecoveryExhausted). -/
theorem init_recovery_exhaustion_bound (cfg : InitConfig) (e : String)
    (ph : String) (hEn : cfg.enabled = true) (hMax : 1 ≤ cfg.maxAttempts) :
    (initFn ⟨false, ph, 0⟩ cfg (.error e)).attempts = cfg.maxAttempts
    ∧ (initFn ⟨false, ph, 0⟩ cfg (.error e)).delays
        = (List.range (cfg.maxAttempts - 1)).map (fun i => cfg.baseDelay * (i + 1))
    ∧ (initFn ⟨false, ph, 0⟩ cfg (.error e)).outcome = .error e := by
  obtain ⟨h1, h2, h3, _⟩ :=
    initLoop_all_fail cfg e hEn cfg.maxAttempts 0 (by omega) hMax
  simp only [initFn]
  rw [if_neg (by decide : ¬ (false = true))]
  refine ⟨h1, ?_, h3⟩
  rw [h2]
  exact List.map_congr_left (fun i hi => by norm_num)

/-- Witness for C3: with the default configuration (maxAttempts 3, base
delay 1000, recovery enabled), a manager whose phases always fail makes
exactly 3 attempts, waits 1000 ms and then 2000 ms before the retries, and
the phase error escapes. -/
theorem init_recovery_exhaustion_bound_witness :
    defaultInitConfig.enabled = true
    ∧ 1 ≤ defaultInitConfig.maxAttempts
    ∧ (initFn ⟨false, "not_started", 0⟩ defaultInitConfig (.error "phase failed")).attempts
        = defaultInitConfig.maxAttempts
    ∧ (initFn ⟨false, "not_started", 0⟩ defaultInitConfig (.error "phase failed")).delays
        = (List.range (defaultInitConfig.maxAttempts - 1)).map
            (fun i => defaultInitConfig.baseDelay * (i + 1))
    ∧ (initFn ⟨false, "not_started", 0⟩ defaultInitConfig (.error "phase failed")).outcome
        = .error "phase failed" :=
  ⟨rfl, by decide,
   (init_recovery_exhaustion_bound defaultInitConfig "phase failed" "not_started" rfl (by decide)).1,
   (init_recovery_exhaustion_bound defaultInitConfig "phase failed" "not_started" rfl (by decide)).2.1,
   (init_recovery_exhaustion_bound defaultInitConfig "phase failed" "not_started" rfl (by decide)).2.2⟩

/-- C7 (code bug): createSimpleCache as written cannot maintain any
invariant: its get and set are arrow functions whose captured receiver is
the HyperGpuResourceManager instance, which never has cache or maxSize
fields, so both operations throw a TypeError on every call instead of
reading or writing the Map declared in the returned object literal. -/
theorem createSimpleCache_get_set_throw_type_error :
    simpleCache_get freshManagerThis "normalizeVector_[3,4,0]"
      = .typeError "this.cache is undefined"
    ∧ simpleCache_set freshManagerThis "normalizeVector_[3,4,0]" (.num 1)
      = .typeError "this.cache is undefined" :=
  ⟨rfl, rfl⟩

/-- C10: a super-resolution call whose input width or height is below
minSuperResolutionSize (50) returns the input data unchanged with its
original dimensions and status skipped, and never enters the execution
framework: no pointer is allocated and the backend kernel is not invoked
(second component none). -/
theorem handleSuperResolution_skips_small_input
    (cache : Option CacheMap) (imageData : List Nat)
    (inW inH outW outH : Nat) (beh : WasmBehavior)
    (h : inW < minSuperResolutionSize ∨ inH < minSuperResolutionSize) :
    handleSuperResolution cache imageData inW inH outW outH beh
      = (.ok (superResolutionSkipResult imageData inW inH), none) := by
  unfold handleSuperResolution
  rw [if_pos h]

/-- Witness for C10: a 10 by 100 image is below the 50-pixel minimum width,
so the call is skipped with the input returned unchanged. -/
theorem handleSuperResolution_skips_small_input_witness :
    (10 < minSuperResolutionSize ∨ 100 < minSuperResolutionSize)
    ∧ handleSuperResolution (some []) [1, 2, 3, 4] 10 100 20 200
        { setupPtrs := [], setupThrows := none, invokeResult := .ok .null }
      = (.ok (superResolutionSkipResult [1, 2, 3, 4] 10 100), none) :=
  ⟨Or.inl (by decide),
   handleSuperResolution_skips_small_input (some []) [1, 2, 3, 4] 10 100 20 200
     { setupPtrs := [], setupThrows := none, invokeResult := .ok .null }
     (Or.inl (by decide))⟩

/-- C4 counterexample: an operation whose backend result is the falsy
scalar 0, run twice through the linear-memory framework with the same
operation name and fingerprint and a result cache available, invokes the
backend twice: the first call computes and stores the result, but the
truthiness hit test treats the stored 0 as a miss, so the second call
invokes the backend again instead of taking the fast path. -/
theorem cache_roundtrip_fails_on_falsy_result :
    (executeWasmWithMemoryManagement (some []) "vectorDot" "[[1,0],[0,1]]"
        { setupPtrs := [], setupThrows := none, invokeResult := .ok (.num 0) }).invokeRan
      = true
    ∧ (executeWasmWithMemoryManagement (some []) "vectorDot" "[[1,0],[0,1]]"
        { setupPtrs := [], setupThrows := none, invokeResult := .ok (.num 0) }).dataSetCall
      = some ("vectorDot_[[1,0],[0,1]]", .num 0)
    ∧ (executeWasmWithMemoryManagement
        (executeWasmWithMemoryManagement (some []) "vectorDot" "[[1,0],[0,1]]"
          { setupPtrs := [], setupThrows := none, invokeResult := .ok (.num 0) }).cacheAfter
        "vectorDot" "[[1,0],[0,1]]"
        { setupPtrs := [], setupThrows := none, invokeResult := .ok (.num 0) }).invokeRan
      = true :=
  ⟨rfl, rfl, rfl⟩

/-- C4 amended: through the linear-memory framework with a result cache
available, two consecutive calls with the same operation name and identical
fingerprint data invoke the backend only once, provided the computed result
is truthy: the second call takes the cache fast path (no setup, no
allocation, no backend call) and returns the same value as the first call.
Operations whose result is falsy are excluded (they are recomputed on every
call, see the counterexample). -/
theorem cache_roundtrip_single_invoke_for_truthy_results
    (c : CacheMap) (m ck : String) (beh : WasmBehavior) (v : JsVal)
    (hmiss : mapGet c (wasmCacheKey m ck) = none)
    (hsetup : beh.setupThrows = none)
    (hinv : beh.invokeResult = .ok v)
    (htr : truthy v = true) :
    (executeWasmWithMemoryManagement (some c) m ck beh).invokeRan = true
    ∧ (executeWasmWithMemoryManagement (some c) m ck beh).result = .ok v
    ∧ (executeWasmWithMemoryManagement
        (executeWasmWithMemoryManagement (some c) m ck beh).cacheAfter m ck beh).result
      = .ok v
    ∧ (executeWasmWithMemoryManagement
        (executeWasmWithMemoryManagement (some c) m ck beh).cacheAfter m ck beh).invokeRan
      = false
    ∧ (executeWasmWithMemoryManagement
        (executeWasmWithMemoryManagement (some c) m ck beh).cacheAfter m ck beh).setupRan
      = false
    ∧ (executeWasmWithMemoryManagement
        (executeWasmWithMemoryManagement (some c) m ck beh).cacheAfter m ck beh).allocated
      = [] := by
  have hm : truthy (cacheGet c (wasmCacheKey m ck)) = false := by
    unfold cacheGet
    rw [hmiss]
    rfl
  rw [wasm_run_miss c m ck beh v hm hsetup hinv]
  have hh : truthy (cacheGet (cacheSet c (wasmCacheKey m ck) v) (wasmCacheKey m ck)) = true := by
    rw [cacheGet_cacheSet_self]
    exact htr
  rw [wasm_run_hit (cacheSet c (wasmCacheKey m ck) v) m ck beh hh]
  refine ⟨rfl, rfl, ?_, rfl, rfl, rfl⟩
  rw [cacheGet_cacheSet_self]

/-- Witness for C4 amended: a concrete pair of calls returning a truthy
array result; the second call is a cache hit with no backend invocation. -/
theorem cache_roundtrip_single_invoke_for_truthy_results_witness :
    mapGet [] (wasmCacheKey "normalizeVector" "[3,4,0]") = none
    ∧ truthy (.arr [.num 1]) = true
    ∧ (executeWasmWithMemoryManagement
        (executeWasmWithMemoryManagement (some []) "normalizeVector" "[3,4,0]"
          { setupPtrs := [4], setupThrows := none,
            invokeResult := .ok (.arr [.num 1]) }).cacheAfter
        "normalizeVector" "[3,4,0]"
        { setupPtrs := [4], setupThrows := none,
          invokeResult := .ok (.arr [.num 1]) }).invokeRan = false :=
  ⟨rfl, rfl,
   (cache_roundtrip_single_invoke_for_truthy_results [] "normalizeVector" "[3,4,0]"
      { setupPtrs := [4], setupThrows := none, invokeResult := .ok (.arr [.num 1]) }
      (.arr [.num 1]) rfl rfl rfl rfl).2.2.2.1⟩

set_option maxRecDepth 40000 in
/-- C5 counterexample: compiled pipelines are not held in a cache
independent of the data ResultCache. A pipeline stored for vector_add is
placed in the same FIFO ResultCache; after 50 data-result insertions
(dataKeys) the pipeline entry has been evicted, and the next
getOrCreatePipeline call has to rebuild the pipeline (build flag true). -/
theorem pipeline_entry_evicted_by_data_fill :
    getOrCreatePipeline (some []) "vector_add" (.ok pipelineVal)
      = .ok (pipelineVal, some [(pipelineKey "vector_add", pipelineVal)], true)
    ∧ dataKeys.length = cacheMaxSize
    ∧ (mapGet cacheAfterDataFill (pipelineKey "vector_add")).isNone = true
    ∧ getOrCreatePipeline (some cacheAfterDataFill) "vector_add" (.ok pipelineVal)
      = .ok (pipelineVal,
             some (cacheSet cacheAfterDataFill (pipelineKey "vector_add") pipelineVal),
             true) := by
  refine ⟨rfl, rfl, ?_, ?_⟩
  · decide
  · rfl

/-- C5 amended: compiled GPU pipelines are cached keyed by the operation
name (under operationName + _pipeline) but in the same shared ResultCache
as data results, not in an independent cache: getOrCreatePipeline fetches
a truthy cached entry from that cache and otherwise builds the pipeline
and stores it back into the same cache, so a stored pipeline entry can be
evicted by data entries filling the ResultCache (see the counterexample). -/
theorem pipeline_cached_in_shared_result_cache
    (c : CacheMap) (op : String) (p : JsVal) :
    (truthy (cacheGet c (pipelineKey op)) = true →
        getOrCreatePipeline (some c) op (.ok p)
          = .ok (cacheGet c (pipelineKey op), some c, false))
    ∧ (truthy (cacheGet c (pipelineKey op)) = false →
        getOrCreatePipeline (some c) op (.ok p)
          = .ok (p, some (cacheSet c (pipelineKey op) p), true)) := by
  constructor <;> intro h <;> simp [getOrCreatePipeline, h]

/-- Witness for C5 amended: a cache already holding the vector_add
pipeline returns it without rebuilding, and an empty cache stores the
built pipeline into itself. -/
theorem pipeline_cached_in_shared_result_cache_witness :
    truthy (cacheGet [(pipelineKey "vector_add", pipelineVal)] (pipelineKey "vector_add")) = true
    ∧ getOrCreatePipeline (some [(pipelineKey "vector_add", pipelineVal)]) "vector_add"
        (.ok pipelineVal)
      = .ok (cacheGet [(pipelineKey "vector_add", pipelineVal)] (pipelineKey "vector_add"),
             some [(pipelineKey "vector_add", pipelineVal)], false) :=
  ⟨rfl,
   (pipeline_cached_in_shared_result_cache [(pipelineKey "vector_add", pipelineVal)]
      "vector_add" pipelineVal).1 rfl⟩

/-- C6 counterexample: the linear-memory framework stores results whose
serialized fingerprint is far above the caching threshold: with a
fingerprint of 10001 characters (shouldCacheResult is false), a successful
call still performs the ResultCache store. -/
theorem wasm_variant_stores_oversized_fingerprint :
    shouldCacheResult oversizedFingerprint = false
    ∧ (executeWasmWithMemoryManagement (some []) "preprocessParticles" oversizedFingerprint
        { setupPtrs := [], setupThrows := none, invokeResult := .ok (.num 7) }).dataSetCall
      = some (wasmCacheKey "preprocessParticles" oversizedFingerprint, .num 7) := by
  constructor
  · have hdata : oversizedFingerprint.length = (List.replicate 10001 'x').length := rfl
    have hlen : oversizedFingerprint.length = 10001 := by
      rw [hdata, List.length_replicate]
    unfold shouldCacheResult
    rw [hlen]
    decide
  · rfl

/-- C6 amended: only the GPU execution framework gates the ResultCache
store on the serialized fingerprint size (a result is stored only when the
fingerprint is at most 10000 characters, and is stored when additionally
the call misses the cache and succeeds); the linear-memory framework
performs the store for every successful call whenever a cache manager is
present, regardless of the fingerprint size. -/
theorem only_gpu_variant_gates_cache_store_by_threshold
    (c : CacheMap) (m ck : String) (beh : WasmBehavior) (v : JsVal)
    (core : Bool) (gcache : Option CacheMap) (gc2 : CacheMap)
    (op gck : String) (gbeh : GpuBehavior) (w q : JsVal) (gc3 : CacheMap) (b : Bool)
    (hmiss : truthy (cacheGet c (wasmCacheKey m ck)) = false)
    (hsetup : beh.setupThrows = none)
    (hinv : beh.invokeResult = .ok v)
    (hgsc : shouldCacheResult gck = true)
    (hgmiss : truthy (cacheGet gc2 (gpuCacheKey op gck)) = false)
    (hgsetup : gbeh.setupThrows = none)
    (hgpip : getOrCreatePipeline (some gc2) op gbeh.pipelineBuild = .ok (q, some gc3, b))
    (hgcomp : gbeh.computeResult = .ok w) :
    (executeWasmWithMemoryManagement (some c) m ck beh).dataSetCall
      = some (wasmCacheKey m ck, v)
    ∧ (∀ (gck2 : String) (gbeh2 : GpuBehavior), shouldCacheResult gck2 = false →
        (executeWebGPUCompute core gcache op gck2 gbeh2).dataSetCall = none)
    ∧ (executeWebGPUCompute true (some gc2) op gck gbeh).dataSetCall
      = some (gpuCacheKey op gck, w) := by
  refine ⟨?_, ?_, ?_⟩
  · rw [wasm_run_miss c m ck beh v hmiss hsetup hinv]
  · intro gck2 gbeh2 hsc
    cases core
    · simp [executeWebGPUCompute]
    · unfold executeWebGPUCompute
      simp only [hsc]
      repeat' split
      all_goals rfl
  · rw [gpu_run_miss gc2 op gck gbeh w q gc3 b hgsc hgmiss hgsetup hgpip hgcomp]

/-- Witness for C6 amended: a linear-memory call with a 10001-character
fingerprint is still stored, and a small-fingerprint GPU call is stored. -/
theorem only_gpu_variant_gates_cache_store_by_threshold_witness :
    truthy (cacheGet [] (wasmCacheKey "preprocessParticles" oversizedFingerprint)) = false
    ∧ shouldCacheResult "[1,2]" = true
    ∧ (executeWasmWithMemoryManagement (some []) "preprocessParticles" oversizedFingerprint
        { setupPtrs := [], setupThrows := none, invokeResult := .ok (.num 7) }).dataSetCall
      = some (wasmCacheKey "preprocessParticles" oversizedFingerprint, .num 7)
    ∧ (executeWebGPUCompute true (some []) "vector_add" "[1,2]"
        { setupBuffers := [], setupThrows := none,
          pipelineBuild := .ok pipelineVal,
          computeResult := .ok (.arr [.num 3]) }).dataSetCall
      = some (gpuCacheKey "vector_add" "[1,2]", .arr [.num 3]) :=
  ⟨rfl, by decide,
   (only_gpu_variant_gates_cache_store_by_threshold
      [] "preprocessParticles" oversizedFingerprint
      { setupPtrs := [], setupThrows := none, invokeResult := .ok (.num 7) }
      (.num 7) true (some []) [] "vector_add" "[1,2]"
      { setupBuffers := [], setupThrows := none,
        pipelineBuild := .ok pipelineVal,
        computeResult := .ok (.arr [.num 3]) }
      (.arr [.num 3]) pipelineVal
      (cacheSet [] (pipelineKey "vector_add") pipelineVal) true
      rfl rfl rfl (by decide) rfl rfl rfl rfl).1,
   (only_gpu_variant_gates_cache_store_by_threshold
      [] "preprocessParticles" oversizedFingerprint
      { setupPtrs := [], setupThrows := none, invokeResult := .ok (.num 7) }
      (.num 7) true (some []) [] "vector_add" "[1,2]"
      { setupBuffers := [], setupThrows := none,
        pipelineBuild := .ok pipelineVal,
        computeResult := .ok (.arr [.num 3]) }
      (.arr [.num 3]) pipelineVal
      (cacheSet [] (pipelineKey "vector_add") pipelineVal) true
      rfl rfl rfl (by decide) rfl rfl rfl rfl).2.2⟩

/-- C9: for every operation whose computed result is a falsy value (the
scalar 0, the empty string, null, false), both execution frameworks treat
a stored cache entry for it as a miss, because the hit test is a plain
truthiness test: the first call computes and stores the value, and a
second identical call still invokes the backend again, on the linear
memory framework and on the GPU framework alike. -/
theorem falsy_results_are_recomputed_every_call
    (c : CacheMap) (m ck : String) (beh : WasmBehavior) (v : JsVal)
    (gc : CacheMap) (op gck : String) (gbeh : GpuBehavior) (p : JsVal)
    (hfalsy : truthy v = false)
    (hmiss : truthy (cacheGet c (wasmCacheKey m ck)) = false)
    (hsetup : beh.setupThrows = none)
    (hinv : beh.invokeResult = .ok v)
    (hgsc : shouldCacheResult gck = true)
    (hgmiss : truthy (cacheGet gc (gpuCacheKey op gck)) = false)
    (hgsetup : gbeh.setupThrows = none)
    (hgpb : gbeh.pipelineBuild = .ok p)
    (hgcomp : gbeh.computeResult = .ok v) :
    (executeWasmWithMemoryManagement (some c) m ck beh).invokeRan = true
    ∧ (executeWasmWithMemoryManagement (some c) m ck beh).dataSetCall
        = some (wasmCacheKey m ck, v)
    ∧ (executeWasmWithMemoryManagement
        (executeWasmWithMemoryManagement (some c) m ck beh).cacheAfter m ck beh).invokeRan
      = true
    ∧ (executeWebGPUCompute true (some gc) op gck gbeh).computeRan = true
    ∧ (executeWebGPUCompute true (some gc) op gck gbeh).dataSetCall
        = some (gpuCacheKey op gck, v)
    ∧ (executeWebGPUCompute true
        (executeWebGPUCompute true (some gc) op gck gbeh).cacheAfter op gck gbeh).computeRan
      = true := by
  rw [wasm_run_miss c m ck beh v hmiss hsetup hinv]
  have hmiss2 : truthy (cacheGet (cacheSet c (wasmCacheKey m ck) v) (wasmCacheKey m ck)) = false := by
    rw [cacheGet_cacheSet_self]
    exact hfalsy
  rw [wasm_run_miss (cacheSet c (wasmCacheKey m ck) v) m ck beh v hmiss2 hsetup hinv]
  obtain ⟨q1, c1, b1, hgpip1⟩ := getOrCreatePipeline_some gc op p
  rw [← hgpb] at hgpip1
  rw [gpu_run_miss gc op gck gbeh v q1 c1 b1 hgsc hgmiss hgsetup hgpip1 hgcomp]
  have hgmiss2 :
      truthy (cacheGet (cacheSet c1 (gpuCacheKey op gck) v) (gpuCacheKey op gck)) = false := by
    rw [cacheGet_cacheSet_self]
    exact hfalsy
  obtain ⟨q2, c2, b2, hgpip2⟩ :=
    getOrCreatePipeline_some (cacheSet c1 (gpuCacheKey op gck) v) op p
  rw [← hgpb] at hgpip2
  rw [gpu_run_miss (cacheSet c1 (gpuCacheKey op gck) v) op gck gbeh v q2 c2 b2
    hgsc hgmiss2 hgsetup hgpip2 hgcomp]
  exact ⟨rfl, rfl, rfl, rfl, rfl, rfl⟩

/-- Witness for C9: the falsy scalar result 0 is recomputed by the backend
on the second identical call, in both frameworks, even though the first
call stored it. -/
theorem falsy_results_are_recomputed_every_call_witness :
    truthy (.num 0) = false
    ∧ shouldCacheResult "[7]" = true
    ∧ (executeWasmWithMemoryManagement
        (executeWasmWithMemoryManagement (some []) "vectorDot" "[7]"
          { setupPtrs := [], setupThrows := none, invokeResult := .ok (.num 0) }).cacheAfter
        "vectorDot" "[7]"
        { setupPtrs := [], setupThrows := none, invokeResult := .ok (.num 0) }).invokeRan
      = true
    ∧ (executeWebGPUCompute true
        (executeWebGPUCompute true (some []) "vector_add" "[7]"
          { setupBuffers := [], setupThrows := none,
            pipelineBuild := .ok pipelineVal,
            computeResult := .ok (.num 0) }).cacheAfter
        "vector_add" "[7]"
        { setupBuffers := [], setupThrows := none,
          pipelineBuild := .ok pipelineVal,
          computeResult := .ok (.num 0) }).computeRan
      = true :=
  ⟨rfl, by decide,
   (falsy_results_are_recomputed_every_call [] "vectorDot" "[7]"
      { setupPtrs := [], setupThrows := none, invokeResult := .ok (.num 0) }
      (.num 0) [] "vector_add" "[7]"
      { setupBuffers := [], setupThrows := none,
        pipelineBuild := .ok pipelineVal, computeResult := .ok (.num 0) }
      pipelineVal rfl rfl rfl rfl (by decide) rfl rfl rfl rfl).2.2.1,
   (falsy_results_are_recomputed_every_call [] "vectorDot" "[7]"
      { setupPtrs := [], setupThrows := none, invokeResult := .ok (.num 0) }
      (.num 0) [] "vector_add" "[7]"
      { setupBuffers := [], setupThrows := none,
        pipelineBuild := .ok pipelineVal, computeResult := .ok (.num 0) }
      pipelineVal rfl rfl rfl rfl (by decide) rfl rfl rfl rfl).2.2.2.2.2⟩

theorem euclideanNorm_nonneg (v : List ℝ) : 0 ≤ euclideanNorm v := by
  unfold euclideanNorm
  exact Real.sqrt_nonneg _

theorem euclideanNorm_340 : euclideanNorm [3, 4, 0] = 5 := by
  unfold euclideanNorm
  rw [show List.foldl (fun sum v => sum + v * v) (0 : ℝ) [3, 4, 0] = 25 by norm_num]
  rw [show (25 : ℝ) = 5 ^ 2 by norm_num]
  exact Real.sqrt_sq (by norm_num)

/-- C8: the fallback vector normalize divides the vector elementwise by
its Euclidean norm whenever that norm is nonzero (for a nonempty vector),
returns the input unchanged whenever the norm is zero, and in particular
maps the vector of 3, 4, 0 to the vector of 0.6, 0.8, 0. Real numbers
model the JavaScript float arithmetic. -/
theorem normalizeVectorGeneric_divides_by_euclidean_norm (v : List ℝ) :
    (v ≠ [] → euclideanNorm v ≠ 0 →
        normalizeVectorGeneric v = v.map (fun x => x / euclideanNorm v))
    ∧ (euclideanNorm v = 0 → normalizeVectorGeneric v = v)
    ∧ normalizeVectorGeneric [3, 4, 0] = [0.6, 0.8, 0] := by
  refine ⟨?_, ?_, ?_⟩
  · intro _ hne
    unfold normalizeVectorGeneric
    rw [if_pos (lt_of_le_of_ne (euclideanNorm_nonneg v) (Ne.symm hne))]
  · intro h0
    unfold normalizeVectorGeneric
    rw [if_neg (by rw [h0]; exact lt_irrefl 0)]
  · unfold normalizeVectorGeneric
    rw [if_pos (by rw [euclideanNorm_340]; norm_num)]
    rw [euclideanNorm_340]
    norm_num

/-- Witness for C8: the vector of 3, 4, 0 is nonempty, has nonzero norm,
and is divided elementwise by that norm. -/
theorem normalizeVectorGeneric_divides_by_euclidean_norm_witness :
    ([3, 4, 0] : List ℝ) ≠ []
    ∧ euclideanNorm [3, 4, 0] ≠ 0
    ∧ normalizeVectorGeneric [3, 4, 0]
        = ([3, 4, 0] : List ℝ).map (fun x => x / euclideanNorm [3, 4, 0]) :=
  ⟨by simp, by rw [euclideanNorm_340]; norm_num,
   (normalizeVectorGeneric_divides_by_euclidean_norm [3, 4, 0]).1 (by simp)
     (by rw [euclideanNorm_340]; norm_num)⟩
